import Mathlib

/-
Verification of the authentication core of the auth-profile API
(`src/01-auth-profile-api`): password hashing (`src/core/security.py`),
token codec (`src/core/tokens.py`, `src/core/config.py`), authenticator
(`src/core/deps.py`), account service (`src/services/auth_service.py`,
`src/routes/auth.py`), user repository (`src/repositories/user_repo.py`)
and profile service (`src/services/profile_service.py`).

Shallow embedding conventions:
- Python `str` values are Lean `String`; password plaintexts are modelled
  as their UTF-8 byte sequences (`List Nat`), because `security.py`
  immediately encodes the plaintext with `password.encode("utf-8")` and
  all subsequent logic is on bytes.
- Python exceptions are modelled with `Except`: a `.error e` value is an
  exception propagating to the caller, a `.ok v` value is a normal return.
- Clocks and randomness are passed explicitly: `now` is the current time
  in seconds, `salt` is the random salt drawn by bcrypt.
- External libraries (passlib, python-jose, pydantic-settings, the uuid
  module, the SQLAlchemy session) are modelled by small definitions whose
  doc comments state the library behaviour being modelled; everything
  else is translated from the repository sources.
-/

set_option autoImplicit false

namespace AuthProfileAPI

/-- Python exceptions that can cross a function boundary in the modelled
code: `AttributeError` (pydantic attribute lookup on an undeclared field),
`JWTError` (python-jose), `ValueError` (raised by `uuid.UUID` on a
malformed string), passlib `UnknownHashError` (raised by
`CryptContext.verify` when the stored hash matches no configured scheme),
and FastAPI `HTTPException` with a status code and a detail string. -/
inductive PyExc where
  | attributeError (name : String)
  | jwtError
  | valueError
  | unknownHashError
  | httpException (statusCode : Nat) (detail : String)
  deriving DecidableEq

/-! ## SHA-256 (model of `hashlib.sha256(...).hexdigest()`)

A byte-level implementation of FIPS 180-4 SHA-256, used by
`_normalize_password` in `src/core/security.py`. Messages and digests are
lists of bytes (`Nat` values below 256). -/

/-- Truncate to a 32-bit word. -/
def w32 (x : Nat) : Nat := x % 4294967296

/-- Rotate a 32-bit word right by `n` bits. -/
def rotr (n x : Nat) : Nat := w32 ((x >>> n) ||| (x <<< (32 - n)))

/-- Bitwise complement on 32-bit words. -/
def bnot32 (x : Nat) : Nat := x ^^^ 4294967295

def sha256Ch (x y z : Nat) : Nat := (x &&& y) ^^^ (bnot32 x &&& z)

def sha256Maj (x y z : Nat) : Nat := (x &&& y) ^^^ (x &&& z) ^^^ (y &&& z)

def bsig0 (x : Nat) : Nat := rotr 2 x ^^^ rotr 13 x ^^^ rotr 22 x

def bsig1 (x : Nat) : Nat := rotr 6 x ^^^ rotr 11 x ^^^ rotr 25 x

def ssig0 (x : Nat) : Nat := rotr 7 x ^^^ rotr 18 x ^^^ (x >>> 3)

def ssig1 (x : Nat) : Nat := rotr 17 x ^^^ rotr 19 x ^^^ (x >>> 10)

/-- The 64 SHA-256 round constants (decimal). -/
def sha256K : List Nat :=
  [1116352408, 1899447441, 3049323471, 3921009573, 961987163, 1508970993,
   2453635748, 2870763221, 3624381080, 310598401, 607225278, 1426881987,
   1925078388, 2162078206, 2614888103, 3248222580, 3835390401, 4022224774,
   264347078, 604807628, 770255983, 1249150122, 1555081692, 1996064986,
   2554220882, 2821834349, 2952996808, 3210313671, 3336571891, 3584528711,
   113926993, 338241895, 666307205, 773529912, 1294757372, 1396182291,
   1695183700, 1986661051, 2177026350, 2456956037, 2730485921, 2820302411,
   3259730800, 3345764771, 3516065817, 3600352804, 4094571909, 275423344,
   430227734, 506948616, 659060556, 883997877, 958139571, 1322822218,
   1537002063, 1747873779, 1955562222, 2024104815, 2227730452, 2361852424,
   2428436474, 2756734187, 3204031479, 3329325298]

/-- Working state of the compression function: eight 32-bit words. -/
structure Sha256State where
  a : Nat
  b : Nat
  c : Nat
  d : Nat
  e : Nat
  f : Nat
  g : Nat
  h : Nat
  deriving DecidableEq

/-- Initial hash value of SHA-256 (decimal). -/
def sha256H0 : Sha256State :=
  ⟨1779033703, 3144134277, 1013904242, 2773480762,
   1359893119, 2600822924, 528734635, 1541459225⟩

/-- One round of the SHA-256 compression function. -/
def sha256Round (s : Sha256State) (kt wt : Nat) : Sha256State :=
  let t1 := w32 (s.h + bsig1 s.e + sha256Ch s.e s.f s.g + kt + wt)
  let t2 := w32 (bsig0 s.a + sha256Maj s.a s.b s.c)
  ⟨w32 (t1 + t2), s.a, s.b, s.c, w32 (s.d + t1), s.e, s.f, s.g⟩

/-- Big-endian 32-bit words from a byte list (four bytes per word). -/
def bytesToWords : List Nat → List Nat
  | a :: b :: c :: d :: rest => (((a * 256 + b) * 256 + c) * 256 + d) :: bytesToWords rest
  | _ => []

/-- Extend the 16 message words of a block to the 64-entry schedule. -/
def extendSchedule (ws0 : List Nat) : List Nat :=
  (List.range 48).foldl
    (fun ws i =>
      let t := i + 16
      ws ++ [w32 (ssig1 (ws.getD (t - 2) 0) + ws.getD (t - 7) 0 +
                  ssig0 (ws.getD (t - 15) 0) + ws.getD (t - 16) 0)])
    ws0

/-- Process one 64-byte block. -/
def compressBlock (hs : Sha256State) (block : List Nat) : Sha256State :=
  let ws := extendSchedule (bytesToWords block)
  let s := (List.range 64).foldl
    (fun s t => sha256Round s (sha256K.getD t 0) (ws.getD t 0)) hs
  ⟨w32 (hs.a + s.a), w32 (hs.b + s.b), w32 (hs.c + s.c), w32 (hs.d + s.d),
   w32 (hs.e + s.e), w32 (hs.f + s.f), w32 (hs.g + s.g), w32 (hs.h + s.h)⟩

/-- The message length in bits as eight big-endian bytes. -/
def lengthBytes (bits : Nat) : List Nat :=
  [bits / 72057594037927936 % 256, bits / 281474976710656 % 256,
   bits / 1099511627776 % 256, bits / 4294967296 % 256,
   bits / 16777216 % 256, bits / 65536 % 256, bits / 256 % 256, bits % 256]

/-- SHA-256 padding: a 0x80 byte, zeros, then the 64-bit message length,
bringing the total length to a multiple of 64 bytes. -/
def padMessage (msg : List Nat) : List Nat :=
  let zeros := (64 - ((msg.length + 9) % 64)) % 64
  msg ++ [128] ++ List.replicate zeros 0 ++ lengthBytes (8 * msg.length)

/-- Split a byte list into 64-byte blocks. -/
def toBlocks : List Nat → List (List Nat)
  | [] => []
  | b :: bs => ((b :: bs).take 64) :: toBlocks ((b :: bs).drop 64)
termination_by bs => bs.length
decreasing_by
  simp [List.length_drop]
  omega

/-- A 32-bit word as four big-endian bytes. -/
def wordToBytes (x : Nat) : List Nat :=
  [x / 16777216 % 256, x / 65536 % 256, x / 256 % 256, x % 256]

/-- SHA-256 digest of a byte sequence: 32 bytes. -/
def sha256 (msg : List Nat) : List Nat :=
  let hs := (toBlocks (padMessage msg)).foldl compressBlock sha256H0
  wordToBytes hs.a ++ wordToBytes hs.b ++ wordToBytes hs.c ++ wordToBytes hs.d ++
  wordToBytes hs.e ++ wordToBytes hs.f ++ wordToBytes hs.g ++ wordToBytes hs.h

/-- Lowercase hex digit for a value below 16, as an ASCII byte. -/
def hexDigitByte (n : Nat) : Nat := if n < 10 then 48 + n else 87 + n

/-- Hexadecimal rendering of a byte sequence (model of `.hexdigest()`),
as the UTF-8 bytes of the hex string: two lowercase hex characters per
input byte. -/
def hexDigestBytes (bs : List Nat) : List Nat :=
  (bs.map (fun b => [hexDigitByte (b / 16), hexDigitByte (b % 16)])).flatten

theorem sha256_length (msg : List Nat) : (sha256 msg).length = 32 := by
  simp [sha256, wordToBytes]

theorem hexDigestBytes_length (bs : List Nat) :
    (hexDigestBytes bs).length = 2 * bs.length := by
  induction bs with
  | nil => simp [hexDigestBytes]
  | cons b t ih =>
      simp [hexDigestBytes] at ih ⊢
      omega

/-! ## Password hashing (`src/core/security.py`)

The module configures `CryptContext(schemes=["bcrypt_sha256"],
deprecated="auto")`. Stored hashes are modelled symbolically: a hash in
the configured `bcrypt_sha256` format records the salt it was produced
with and the (normalized) secret it commits to — an idealization of
bcrypt as collision-free — while any string not in a recognized format is
`other`. -/

/-- A stored password hash string: either a well-formed `bcrypt_sha256`
hash (idealized as recording its salt and the secret bytes it was
computed from), or a string in no recognized format (malformed, or from
a different or legacy scheme). -/
inductive StoredHash where
  | bcryptSha256 (salt : Nat) (secret : List Nat)
  | other (raw : List Nat)
  deriving DecidableEq

/-- Model of `pwd_context.hash`: bcrypt with a fresh random salt (given
explicitly), committing to the secret bytes. -/
def cryptContextHash (secret : List Nat) (salt : Nat) : StoredHash :=
  .bcryptSha256 salt secret

/-- Model of `pwd_context.verify` for
`CryptContext(schemes=["bcrypt_sha256"])` (passlib): against a hash in
the configured scheme it is a constant-time check that succeeds exactly
when the secrets agree (ideal collision-free bcrypt); against a hash
string that matches no configured scheme passlib raises
`UnknownHashError` — it does not return `False`. -/
def cryptContextVerify (secret : List Nat) : StoredHash → Except PyExc Bool
  | .bcryptSha256 _ sec => .ok (decide (secret = sec))
  | .other _ => .error .unknownHashError

/-- `_normalize_password` from `src/core/security.py`: if the UTF-8 byte
length exceeds 72, pre-hash with SHA-256 and use the hex digest (as a
string, here: its UTF-8 bytes); otherwise pass the bytes through. -/
def normalizePassword (password : List Nat) : List Nat :=
  if password.length > 72 then hexDigestBytes (sha256 password) else password

/-- `hash_password` from `src/core/security.py`:
`pwd_context.hash(_normalize_password(password))`. -/
def hash_password (password : List Nat) (salt : Nat) : StoredHash :=
  cryptContextHash (normalizePassword password) salt

/-- `verify_password` from `src/core/security.py`:
`pwd_context.verify(_normalize_password(password), password_hash)`. -/
def verify_password (password : List Nat) (password_hash : StoredHash) :
    Except PyExc Bool :=
  cryptContextVerify (normalizePassword password) password_hash

/-! ## Configuration (`src/core/config.py`)

The pydantic `Settings` class declares exactly one field, `DATABASE_URL`.
On a pydantic model, attribute access for a name that is not a declared
field raises `AttributeError`; extra environment variables are ignored,
not stored, so they cannot supply the missing attributes. -/

/-- The `Settings` class from `src/core/config.py`: the only declared
field is `DATABASE_URL`. -/
structure Settings where
  DATABASE_URL : String
  deriving DecidableEq

/-- Pydantic attribute lookup on the `settings` object for a
string-valued attribute: a declared field returns its value, any other
name raises `AttributeError`. -/
def Settings.lookup (s : Settings) (name : String) : Except PyExc String :=
  if name = "DATABASE_URL" then .ok s.DATABASE_URL
  else .error (.attributeError name)

/-- The attribute views of a settings object that `src/core/tokens.py`
reads: `JWT_SECRET`, `JWT_ALGORITHM` and `ACCESS_TOKEN_EXPIRE_MINUTES`,
each access either producing a value or raising. The token functions are
written against this interface so that their behaviour can also be
examined under a configuration that does provide the attributes. -/
structure SettingsLike where
  JWT_SECRET : Except PyExc String
  JWT_ALGORITHM : Except PyExc String
  ACCESS_TOKEN_EXPIRE_MINUTES : Except PyExc Nat

/-- The attribute views of the actual `settings` object: all three
names read by `src/core/tokens.py` are undeclared on `Settings`, so each
access raises `AttributeError`. (`ACCESS_TOKEN_EXPIRE_MINUTES` is read
as a number; the lookup always fails before any value is produced, so
the numeric conversion on the `.ok` branch is never reached.) -/
def Settings.toLike (s : Settings) : SettingsLike where
  JWT_SECRET := s.lookup "JWT_SECRET"
  JWT_ALGORITHM := s.lookup "JWT_ALGORITHM"
  ACCESS_TOKEN_EXPIRE_MINUTES := (s.lookup "ACCESS_TOKEN_EXPIRE_MINUTES").map (fun _ => 0)

/-! ## Token codec (`src/core/tokens.py`)

python-jose is modelled symbolically: `jwt.encode` produces a signed
structure recording the payload, the signing secret and the algorithm;
`jwt.decode` checks the signature (same secret), the algorithm list and
the `exp` claim, raising `JWTError` on any failure. A string that is not
a well-formed JWT at all is the `malformed` case. -/

/-- The claim set carried by a token: the `sub` claim (optional in a
general JWT; `create_access_token` always sets it) and the `exp` claim
as an absolute time in seconds. -/
structure JwtPayload where
  sub : Option String
  exp : Nat
  deriving DecidableEq

/-- A token string: either the compact serialization of a signed JWT
(recording payload, signing secret and algorithm) or a string that does
not parse as a JWT. -/
inductive TokenStr where
  | signed (payload : JwtPayload) (secret : String) (alg : String)
  | malformed (raw : String)
  deriving DecidableEq

/-- Model of `jose.jwt.encode(payload, secret, algorithm=alg)`. -/
def jwtEncode (payload : JwtPayload) (secret alg : String) : TokenStr :=
  .signed payload secret alg

/-- Model of `jose.jwt.decode(token, secret, algorithms=algs)` at time
`now`: raises `JWTError` when the token is malformed, the signature does
not verify against `secret`, the algorithm is not in the allowed list,
or the `exp` claim is not in the future. -/
def jwtDecode (tok : TokenStr) (secret : String) (algs : List String)
    (now : Nat) : Except PyExc JwtPayload :=
  match tok with
  | .malformed _ => .error .jwtError
  | .signed payload s a =>
      if s = secret ∧ a ∈ algs ∧ now < payload.exp then .ok payload
      else .error .jwtError

/-- `create_access_token` from `src/core/tokens.py`: computes
`expire = now + ACCESS_TOKEN_EXPIRE_MINUTES minutes`, then signs
`{"sub": user_id, "exp": expire}` with `JWT_SECRET` and `JWT_ALGORITHM`.
The attribute reads happen in this order and any `AttributeError`
propagates (there is no handler in this function). -/
def create_access_token (st : SettingsLike) (user_id : String) (now : Nat) :
    Except PyExc TokenStr := do
  let minutes ← st.ACCESS_TOKEN_EXPIRE_MINUTES
  let secret ← st.JWT_SECRET
  let alg ← st.JWT_ALGORITHM
  .ok (jwtEncode { sub := some user_id, exp := now + minutes * 60 } secret alg)

/-- `decode_access_token` from `src/core/tokens.py`: inside a `try`
block it reads `JWT_SECRET` and `JWT_ALGORITHM` and calls `jwt.decode`,
then returns `payload.get("sub")`; the `except JWTError` handler turns a
`JWTError` into a returned `None`, while any other exception (in
particular the `AttributeError` from the settings reads) propagates. -/
def decode_access_token (st : SettingsLike) (tok : TokenStr) (now : Nat) :
    Except PyExc (Option String) :=
  match (do
      let secret ← st.JWT_SECRET
      let alg ← st.JWT_ALGORITHM
      jwtDecode tok secret [alg] now : Except PyExc JwtPayload) with
  | .ok payload => .ok payload.sub
  | .error .jwtError => .ok none
  | .error e => .error e

/-! ## User model and repository (`src/models/user.py`,
`src/repositories/user_repo.py`)

A `users` row. The `id` column is a UUID, modelled by its 128-bit
integer value (Python `uuid.UUID` objects compare by value). The store
is a list of rows; email uniqueness is a database constraint, and
`scalar_one_or_none` on a unique column is modelled by `List.find?`. -/

/-- One row of the `users` table (`src/models/user.py`): id, email,
password hash, name, optional bio and the two timestamps. The
`updated_at` column has `onupdate=func.now()`. -/
structure User where
  id : Nat
  email : String
  password_hash : StoredHash
  name : String
  bio : Option String
  created_at : Nat
  updated_at : Nat
  deriving DecidableEq

/-- Numeric value of one hex digit character. -/
def hexVal (c : Char) : Nat :=
  if c.toNat ≥ 97 then c.toNat - 87
  else if c.toNat ≥ 65 then c.toNat - 55
  else c.toNat - 48

/-- Model of the stdlib constructor `uuid.UUID(str)`: hyphens are
removed, the remaining text must be exactly 32 hex digits, and the value
is that hex number; otherwise `ValueError` is raised. (The brace and
urn forms also accepted by the stdlib are omitted from the model.) -/
def uuidParse (s : String) : Option Nat :=
  let ds := s.toList.filter (fun c => c ≠ '-')
  if ds.length = 32 ∧ ds.all (fun c => c.isDigit ∨ (97 ≤ c.toNat ∧ c.toNat ≤ 102) ∨ (65 ≤ c.toNat ∧ c.toNat ≤ 70)) then
    some (ds.foldl (fun acc c => acc * 16 + hexVal c) 0)
  else none

/-- `get_user_by_email` from `src/repositories/user_repo.py`: point
lookup by the unique email column. -/
def get_user_by_email (db : List User) (email : String) : Option User :=
  db.find? (fun u => u.email == email)

/-- `get_user_by_id` from `src/repositories/user_repo.py`: a string id
is first converted with `uuid.UUID(user_id)`, which raises `ValueError`
on a malformed string; then point lookup by primary key. -/
def get_user_by_id (db : List User) (user_id : String) :
    Except PyExc (Option User) :=
  match uuidParse user_id with
  | none => .error .valueError
  | some v => .ok (db.find? (fun u => u.id == v))

/-! ## Authenticator (`src/core/deps.py`) -/

/-- `get_current_user` from `src/core/deps.py`, after `HTTPBearer` has
already extracted the token: decode the token (an exception from the
codec propagates — there is no handler here); `if not user_id:` treats
both `None` and the empty string as falsy and raises
`HTTPException(401, "Invalid or expired token")`; then load the user by
id (a `ValueError` from the UUID conversion propagates) and raise
`HTTPException(401, "User not found")` when no row matches. -/
def get_current_user (st : SettingsLike) (db : List User) (tok : TokenStr)
    (now : Nat) : Except PyExc User :=
  match decode_access_token st tok now with
  | .error e => .error e
  | .ok uidOpt =>
    match uidOpt with
    | none => .error (.httpException 401 "Invalid or expired token")
    | some uid =>
      if uid = "" then .error (.httpException 401 "Invalid or expired token")
      else
        match get_user_by_id db uid with
        | .error e => .error e
        | .ok none => .error (.httpException 401 "User not found")
        | .ok (some u) => .ok u

/-! ## Account service and login route (`src/services/auth_service.py`,
`src/routes/auth.py`) -/

/-- The exceptions `login_user` can raise: the custom
`InvalidCredentials` (for unknown email or failed password check), or a
Python exception escaping from `verify_password` or
`create_access_token`. -/
inductive LoginErr where
  | invalidCredentials
  | py (e : PyExc)
  deriving DecidableEq

/-- `login_user` from `src/services/auth_service.py`: look up the user
by email and raise `InvalidCredentials` if absent; verify the password
and raise `InvalidCredentials` if the check returns false (an exception
from the check itself propagates); otherwise issue a token for
`str(user.id)` and return token and user. -/
def login_user (st : SettingsLike) (db : List User) (email : String)
    (password : List Nat) (now : Nat) : Except LoginErr (TokenStr × User) :=
  match get_user_by_email db email with
  | none => .error .invalidCredentials
  | some user =>
    match verify_password password user.password_hash with
    | .error e => .error (.py e)
    | .ok false => .error .invalidCredentials
    | .ok true =>
      match create_access_token st (toString user.id) now with
      | .error e => .error (.py e)
      | .ok token => .ok (token, user)

/-- The `POST /auth/login` handler from `src/routes/auth.py`: calls
`login_user` and maps the single `InvalidCredentials` exception to
`HTTPException(401, "Invalid email or password")`; any other exception
propagates unmapped. -/
def login (st : SettingsLike) (db : List User) (email : String)
    (password : List Nat) (now : Nat) : Except PyExc (TokenStr × User) :=
  match login_user st db email password now with
  | .error .invalidCredentials =>
      .error (.httpException 401 "Invalid email or password")
  | .error (.py e) => .error e
  | .ok r => .ok r

/-! ## Profile service (`src/services/profile_service.py`,
`src/schemas/user.py`) -/

/-- `UpdateProfileRequest` from `src/schemas/user.py`: both fields are
optional with default `None`; a field sent as JSON `null` and a field
absent from the payload both parse to `None`. -/
structure UpdateProfileRequest where
  name : Option String
  bio : Option String
  deriving DecidableEq

/-- The field assignments of `update_profile`: `user.name` is assigned
when `updates.name is not None`, then `user.bio` when
`updates.bio is not None`. -/
def profileChanges (user : User) (updates : UpdateProfileRequest) : User :=
  let user1 := match updates.name with
    | some n => { user with name := n }
    | none => user
  match updates.bio with
  | some b => { user1 with bio := b }
  | none => user1

/-- `update_user` from `src/repositories/user_repo.py` (`db.commit()`
then `db.refresh(user)`): the SQLAlchemy flush issues an UPDATE
statement only when some column value actually changed relative to the
loaded row; the `users.updated_at` column has `onupdate=func.now()`, so
a real UPDATE also sets `updated_at` to the database clock, and the
refresh reloads that value into the object. -/
def update_user (now : Nat) (loaded modified : User) : User :=
  if modified = loaded then modified else { modified with updated_at := now }

/-- `update_profile` from `src/services/profile_service.py`: apply the
provided fields to the loaded user object, then commit and refresh. -/
def update_profile (now : Nat) (user : User) (updates : UpdateProfileRequest) :
    User :=
  update_user now user (profileChanges user updates)

/-! ## Claims -/

deriving instance DecidableEq for Except

/-- Claim C10: `create_access_token` and `decode_access_token` read the
configuration attributes `JWT_SECRET`, `JWT_ALGORITHM` and
`ACCESS_TOKEN_EXPIRE_MINUTES`, none of which is declared by the
`Settings` type (which declares only `DATABASE_URL`); consequently every
token-issuance and token-verification call raises an attribute-lookup
error instead of returning a token or a rejection. Issuance fails on its
first settings read (`ACCESS_TOKEN_EXPIRE_MINUTES`), verification on its
first (`JWT_SECRET`). -/
theorem c10_token_calls_raise_attribute_error (s : Settings) (uid : String)
    (tok : TokenStr) (now : Nat) :
    s.lookup "JWT_SECRET" = .error (.attributeError "JWT_SECRET") ∧
    s.lookup "JWT_ALGORITHM" = .error (.attributeError "JWT_ALGORITHM") ∧
    s.lookup "ACCESS_TOKEN_EXPIRE_MINUTES"
      = .error (.attributeError "ACCESS_TOKEN_EXPIRE_MINUTES") ∧
    create_access_token s.toLike uid now
      = .error (.attributeError "ACCESS_TOKEN_EXPIRE_MINUTES") ∧
    decode_access_token s.toLike tok now
      = .error (.attributeError "JWT_SECRET") :=
  ⟨rfl, rfl, rfl, rfl, rfl⟩

/-- Claim C6: the claimed round trip
`decode_access_token (create_access_token id) = id` never happens in the
code as written: with the `Settings` type from `src/core/config.py`,
`create_access_token` raises `AttributeError` on its first settings read
for every identifier, so no token is ever issued. Under a configuration
object that does provide the three attributes, the round trip does
return the identifier immediately after issuance (second conjunct),
which is what the claim describes. -/
theorem c6_roundtrip_blocked_by_settings :
    (∀ (s : Settings) (now : Nat),
      create_access_token s.toLike "42" now
        = .error (.attributeError "ACCESS_TOKEN_EXPIRE_MINUTES")) ∧
    (∀ (secret alg id : String) (ttl now : Nat), 0 < ttl →
      (create_access_token ⟨.ok secret, .ok alg, .ok ttl⟩ id now).bind
          (fun t => decode_access_token ⟨.ok secret, .ok alg, .ok ttl⟩ t now)
        = .ok (some id)) := by
  constructor
  · intro s now; rfl
  · intro secret alg id ttl now h
    have hlt : now < now + ttl * 60 := by omega
    simp [create_access_token, decode_access_token, jwtEncode, jwtDecode,
      Except.bind, Bind.bind, hlt]

/-- Witness for C6: with a concrete settings object and concrete inputs,
issuance fails with the attribute error, and the repaired-configuration
round trip returns the identifier. -/
theorem c6_roundtrip_blocked_by_settings_witness :
    create_access_token (Settings.toLike ⟨"postgresql://localhost/app"⟩) "42" 0
      = .error (.attributeError "ACCESS_TOKEN_EXPIRE_MINUTES") ∧
    (create_access_token ⟨.ok "s", .ok "HS256", .ok 30⟩ "42" 0).bind
        (fun t => decode_access_token ⟨.ok "s", .ok "HS256", .ok 30⟩ t 0)
      = .ok (some "42") :=
  ⟨c6_roundtrip_blocked_by_settings.1 ⟨"postgresql://localhost/app"⟩ 0,
   c6_roundtrip_blocked_by_settings.2 "s" "HS256" "42" 30 0 (by decide)⟩

/-- Claim C7: the claim says `decode_access_token` never raises and
returns the uniform rejection `None` on any failure. With the actual
`Settings` type the code instead raises `AttributeError` on every input,
because the settings reads inside the `try` block are not `JWTError` and
the handler does not catch them (first conjunct) — contradicting the
function docstring, which promises `None` for invalid tokens. Under a
configuration whose three attribute reads succeed, the function indeed
never raises: it returns some value for every input (second conjunct). -/
theorem c7_decode_raises_attribute_error :
    (∀ (s : Settings) (tok : TokenStr) (now : Nat),
      decode_access_token s.toLike tok now
        = .error (.attributeError "JWT_SECRET")) ∧
    (∀ (secret alg : String) (ttl : Except PyExc Nat) (tok : TokenStr)
        (now : Nat),
      ∃ r : Option String,
        decode_access_token ⟨.ok secret, .ok alg, ttl⟩ tok now = .ok r) := by
  constructor
  · intro s tok now; rfl
  · intro secret alg ttl tok now
    cases tok with
    | malformed raw => exact ⟨none, rfl⟩
    | signed payload s a =>
        by_cases hc : s = secret ∧ a ∈ [alg] ∧ now < payload.exp
        · obtain ⟨hs, ha, he⟩ := hc
          have ha' : a = alg := by simpa using ha
          exact ⟨payload.sub, by
            simp [decode_access_token, jwtDecode, Except.bind, Bind.bind, hs,
              ha', he]⟩
        · have hc' : ¬(s = secret ∧ a = alg ∧ now < payload.exp) := by
            simpa using hc
          exact ⟨none, by
            simp [decode_access_token, jwtDecode, Except.bind, Bind.bind, hc']⟩

/-- Claim C2: a login attempt with a nonexistent email and one with an
existing email but wrong password raise the identical `InvalidCredentials`
condition from `login_user`, and the route maps both to the identical
`HTTPException(401, "Invalid email or password")`, so the two cases are
indistinguishable from the error alone. The existing user's stored hash
is one produced by `hash_password`, and "wrong password" means its
normalized form differs from the normalized registered password. -/
theorem c2_login_failures_indistinguishable (st : SettingsLike)
    (db : List User) (email1 email2 : String) (pw1 pw2 realpw : List Nat)
    (salt now : Nat) (u : User)
    (h1 : get_user_by_email db email1 = none)
    (h2 : get_user_by_email db email2 = some u)
    (h3 : u.password_hash = hash_password realpw salt)
    (h4 : normalizePassword pw2 ≠ normalizePassword realpw) :
    login_user st db email1 pw1 now = .error .invalidCredentials ∧
    login_user st db email2 pw2 now = .error .invalidCredentials ∧
    login st db email1 pw1 now
      = .error (.httpException 401 "Invalid email or password") ∧
    login st db email2 pw2 now = login st db email1 pw1 now := by
  have hv : verify_password pw2 u.password_hash = .ok false := by
    rw [h3]
    simp [verify_password, hash_password, cryptContextHash, cryptContextVerify,
      h4]
  have hl1 : login_user st db email1 pw1 now = .error .invalidCredentials := by
    simp [login_user, h1]
  have hl2 : login_user st db email2 pw2 now = .error .invalidCredentials := by
    simp [login_user, h2, hv]
  refine ⟨hl1, hl2, ?_, ?_⟩
  · simp [login, hl1]
  · simp [login, hl1, hl2]

/-- Witness for C2: a store with one registered user (password bytes
`[97]`); logging in with an unknown email and logging in with the right
email but the wrong password (`[98]`) produce the same route-level
error. -/
theorem c2_login_failures_indistinguishable_witness :
    login (Settings.toLike ⟨"postgresql://localhost/app"⟩)
        [⟨1, "a@x.com", hash_password [97] 0, "A", none, 0, 0⟩]
        "b@x.com" [97] 0
      = .error (.httpException 401 "Invalid email or password") ∧
    login (Settings.toLike ⟨"postgresql://localhost/app"⟩)
        [⟨1, "a@x.com", hash_password [97] 0, "A", none, 0, 0⟩]
        "a@x.com" [98] 0
      = login (Settings.toLike ⟨"postgresql://localhost/app"⟩)
          [⟨1, "a@x.com", hash_password [97] 0, "A", none, 0, 0⟩]
          "b@x.com" [97] 0 :=
  (fun h => ⟨h.2.2.1, h.2.2.2⟩)
    (c2_login_failures_indistinguishable
      (Settings.toLike ⟨"postgresql://localhost/app"⟩)
      [⟨1, "a@x.com", hash_password [97] 0, "A", none, 0, 0⟩]
      "b@x.com" "a@x.com" [97] [98] [97] 0 0
      ⟨1, "a@x.com", hash_password [97] 0, "A", none, 0, 0⟩
      (by decide) (by decide) (by decide) (by decide))

/-- Counterexample to claim C3: against a stored hash that is in no
recognized format (here the bytes of a legacy-looking string), the
passlib context raises `UnknownHashError`, which `verify_password`
propagates instead of returning `false`. -/
theorem c3_counterexample :
    verify_password [97] (.other [36, 50, 97, 36]) = .error .unknownHashError ∧
    verify_password [97] (.other [36, 50, 97, 36]) ≠ .ok false := by
  decide

/-- Claim C3 amended: for a malformed stored hash (one in no recognized
scheme) `verify_password` raises passlib `UnknownHashError` rather than
returning `false`; it returns a boolean without raising only for stored
hashes in the configured `bcrypt_sha256` scheme. -/
theorem c3_amended_verify_raises_on_malformed_hash (pw raw sec : List Nat)
    (salt : Nat) :
    verify_password pw (.other raw) = .error .unknownHashError ∧
    ∃ b : Bool, verify_password pw (.bcryptSha256 salt sec) = .ok b :=
  ⟨rfl, ⟨decide (normalizePassword pw = sec), rfl⟩⟩

/-- Counterexample to claim C5: the pre-hash normalization is not
injective across the 72-byte boundary. For the 73-byte password
`p2 = "aaa...a"` and the 64-byte password `p` equal to the hex SHA-256
digest of `p2`, both normalize to the same value, so `p` verifies
against the stored hash of `p2` although `p ≠ p2`. -/
theorem c5_counterexample :
    hexDigestBytes (sha256 (List.replicate 73 97)) ≠ List.replicate 73 97 ∧
    verify_password (hexDigestBytes (sha256 (List.replicate 73 97)))
        (hash_password (List.replicate 73 97) 0) = .ok true := by
  have hlen : (hexDigestBytes (sha256 (List.replicate 73 97))).length = 64 := by
    rw [hexDigestBytes_length, sha256_length]
  constructor
  · intro h
    have hl := congrArg List.length h
    rw [hlen] at hl
    simp at hl
  · have hn2 : normalizePassword (List.replicate 73 97)
        = hexDigestBytes (sha256 (List.replicate 73 97)) := by
      simp only [normalizePassword]
      rw [if_pos (by simp : (List.replicate 73 97).length > 72)]
    have hn1 : normalizePassword (hexDigestBytes (sha256 (List.replicate 73 97)))
        = hexDigestBytes (sha256 (List.replicate 73 97)) := by
      simp only [normalizePassword]
      rw [if_neg (by omega)]
    have step : verify_password (hexDigestBytes (sha256 (List.replicate 73 97)))
          (hash_password (List.replicate 73 97) 0)
        = .ok (decide
            (normalizePassword (hexDigestBytes (sha256 (List.replicate 73 97)))
              = normalizePassword (List.replicate 73 97))) := rfl
    rw [step, hn1, hn2, decide_eq_true rfl]

/-- Claim C5 amended: `verify_password p (hash_password p)` is true for
every password; `verify_password p (hash_password p2)` is false whenever
the two passwords have distinct normalized forms — in particular for any
two distinct passwords of at most 72 UTF-8 bytes. (It is not false for
every distinct pair: a password equal to the hex digest of a over-72-byte
password collides after normalization, per the counterexample.) -/
theorem c5_amended_verify_roundtrip :
    (∀ (pw : List Nat) (salt : Nat),
      verify_password pw (hash_password pw salt) = .ok true) ∧
    (∀ (p p2 : List Nat) (salt : Nat),
      normalizePassword p ≠ normalizePassword p2 →
      verify_password p (hash_password p2 salt) = .ok false) ∧
    (∀ (p p2 : List Nat) (salt : Nat),
      p.length ≤ 72 → p2.length ≤ 72 → p ≠ p2 →
      verify_password p (hash_password p2 salt) = .ok false) := by
  have hne : ∀ (p p2 : List Nat) (salt : Nat),
      normalizePassword p ≠ normalizePassword p2 →
      verify_password p (hash_password p2 salt) = .ok false := by
    intro p p2 salt h
    simp [verify_password, hash_password, cryptContextHash, cryptContextVerify,
      h]
  refine ⟨?_, hne, ?_⟩
  · intro pw salt
    simp [verify_password, hash_password, cryptContextHash, cryptContextVerify]
  · intro p p2 salt h1 h2 h
    have e1 : normalizePassword p = p := by
      simp [normalizePassword]
      omega
    have e2 : normalizePassword p2 = p2 := by
      simp [normalizePassword]
      omega
    exact hne p p2 salt (by rw [e1, e2]; exact h)

/-- Witness for C5 (amended): the one-byte password `[97]` verifies
against its own hash and fails against the hash of `[98]`. -/
theorem c5_amended_verify_roundtrip_witness :
    verify_password [97] (hash_password [97] 5) = .ok true ∧
    verify_password [97] (hash_password [98] 5) = .ok false :=
  ⟨c5_amended_verify_roundtrip.1 [97] 5,
   c5_amended_verify_roundtrip.2.1 [97] [98] 5 (by decide)⟩

/-- Claim C8: `_normalize_password` replaces a plaintext longer than 72
UTF-8 bytes by the 64-character hex SHA-256 digest of its bytes and
passes a plaintext of at most 72 bytes through unchanged; both
`hash_password` and `verify_password` invoke the underlying hash only on
the normalized value, and hashing is total (never raises) on input of
any length. -/
theorem c8_normalization_boundary (pw : List Nat) (salt : Nat)
    (h : StoredHash) :
    (72 < pw.length →
      normalizePassword pw = hexDigestBytes (sha256 pw) ∧
      (normalizePassword pw).length = 64) ∧
    (pw.length ≤ 72 → normalizePassword pw = pw) ∧
    hash_password pw salt = cryptContextHash (normalizePassword pw) salt ∧
    verify_password pw h = cryptContextVerify (normalizePassword pw) h := by
  refine ⟨?_, ?_, rfl, rfl⟩
  · intro hl
    have e : normalizePassword pw = hexDigestBytes (sha256 pw) := by
      simp [normalizePassword, hl]
    refine ⟨e, ?_⟩
    rw [e, hexDigestBytes_length, sha256_length]
  · intro hl
    simp [normalizePassword]
    omega

/-- Witness for C8: a 73-byte password is replaced by its 64-byte hex
digest before hashing; a 1-byte password passes through unchanged. -/
theorem c8_normalization_boundary_witness :
    (normalizePassword (List.replicate 73 97)
        = hexDigestBytes (sha256 (List.replicate 73 97)) ∧
      (normalizePassword (List.replicate 73 97)).length = 64) ∧
    normalizePassword [97] = [97] :=
  ⟨(c8_normalization_boundary (List.replicate 73 97) 0 (.other [])).1
      (by decide),
   (c8_normalization_boundary [97] 0 (.other [])).2.1 (by decide)⟩

/-- Field-by-field behaviour of the assignment half of `update_profile`:
only `name` and `bio` are touched, and each only when provided. -/
theorem profileChanges_fields (u : User) (upd : UpdateProfileRequest) :
    (profileChanges u upd).id = u.id ∧
    (profileChanges u upd).email = u.email ∧
    (profileChanges u upd).password_hash = u.password_hash ∧
    (profileChanges u upd).created_at = u.created_at ∧
    (profileChanges u upd).updated_at = u.updated_at ∧
    (profileChanges u upd).name = upd.name.getD u.name ∧
    (profileChanges u upd).bio = (match upd.bio with
      | some b => some b
      | none => u.bio) := by
  cases hn : upd.name <;> cases hb : upd.bio <;>
    simp [profileChanges, hn, hb]

/-- Counterexample to claim C4: a payload that changes the name makes
the committed row's `updated_at` differ from its value before the PATCH,
because the `users.updated_at` column carries `onupdate=func.now()` —
the last-updated timestamp is not left unchanged by `update_profile`. -/
theorem c4_counterexample :
    (update_profile 9 ⟨1, "a@x.com", .bcryptSha256 0 [97], "Al", none, 5, 5⟩
        ⟨some "Bob", none⟩).updated_at
      ≠ (⟨1, "a@x.com", .bcryptSha256 0 [97], "Al", none, 5, 5⟩ : User).updated_at := by
  decide

/-- Claim C4 amended: `update_profile` leaves the identifier, email,
password hash and created-at timestamp unchanged for every payload, and
only `name` and `bio` are reachable from the payload; the last-updated
timestamp is unchanged when the payload changes nothing, but is set to
the database clock by the column's `onupdate` hook whenever the update
actually changes `name` or `bio`. -/
theorem c4_amended_update_profile_frame (now : Nat) (u : User)
    (upd : UpdateProfileRequest) :
    (update_profile now u upd).id = u.id ∧
    (update_profile now u upd).email = u.email ∧
    (update_profile now u upd).password_hash = u.password_hash ∧
    (update_profile now u upd).created_at = u.created_at ∧
    (update_profile now u upd).name = upd.name.getD u.name ∧
    (update_profile now u upd).bio = (match upd.bio with
      | some b => some b
      | none => u.bio) ∧
    (profileChanges u upd = u → update_profile now u upd = u) ∧
    (profileChanges u upd ≠ u → (update_profile now u upd).updated_at = now) := by
  obtain ⟨h1, h2, h3, h4, _, h6, h7⟩ := profileChanges_fields u upd
  by_cases hc : profileChanges u upd = u
  · have e : update_profile now u upd = profileChanges u upd := by
      simp [update_profile, update_user, hc]
    exact ⟨by rw [e, h1], by rw [e, h2], by rw [e, h3], by rw [e, h4],
      by rw [e, h6], by rw [e, h7], fun _ => by rw [e, hc],
      fun hne => absurd hc hne⟩
  · have e : update_profile now u upd
        = { profileChanges u upd with updated_at := now } := by
      simp [update_profile, update_user, hc]
    exact ⟨by rw [e]; exact h1, by rw [e]; exact h2, by rw [e]; exact h3,
      by rw [e]; exact h4, by rw [e]; exact h6, by rw [e]; exact h7,
      fun h => absurd h hc, fun _ => by rw [e]⟩

/-- Witness for C4 (amended): an empty payload commits no change at all,
and a name change stamps `updated_at` with the database clock. -/
theorem c4_amended_update_profile_frame_witness :
    update_profile 9 ⟨1, "a@x.com", .bcryptSha256 0 [97], "Al", none, 5, 5⟩
        ⟨none, none⟩
      = ⟨1, "a@x.com", .bcryptSha256 0 [97], "Al", none, 5, 5⟩ ∧
    (update_profile 9 ⟨1, "a@x.com", .bcryptSha256 0 [97], "Al", none, 5, 5⟩
        ⟨some "Bob", none⟩).updated_at = 9 :=
  ⟨(c4_amended_update_profile_frame 9
      ⟨1, "a@x.com", .bcryptSha256 0 [97], "Al", none, 5, 5⟩
      ⟨none, none⟩).2.2.2.2.2.2.1 (by decide),
   (c4_amended_update_profile_frame 9
      ⟨1, "a@x.com", .bcryptSha256 0 [97], "Al", none, 5, 5⟩
      ⟨some "Bob", none⟩).2.2.2.2.2.2.2 (by decide)⟩

/-- Claim C9: for a user whose bio is set and a payload whose bio field
is null (pydantic parses an explicit JSON `null` and an absent field
both to `None`), `update_profile` leaves the bio unchanged: the
`is not None` guard makes it impossible to clear a bio back to null
through this path. -/
theorem c9_null_bio_cannot_clear (now : Nat) (u : User)
    (upd : UpdateProfileRequest) (hbio : u.bio ≠ none)
    (hupd : upd.bio = none) :
    (update_profile now u upd).bio = u.bio ∧
    (update_profile now u upd).bio ≠ none := by
  have h7 := (profileChanges_fields u upd).2.2.2.2.2.2
  rw [hupd] at h7
  have hb : (update_profile now u upd).bio = u.bio := by
    by_cases hc : profileChanges u upd = u
    · have e : update_profile now u upd = profileChanges u upd := by
        simp [update_profile, update_user, hc]
      rw [e]; exact h7
    · have e : update_profile now u upd
          = { profileChanges u upd with updated_at := now } := by
        simp [update_profile, update_user, hc]
      rw [e]; exact h7
  exact ⟨hb, by rw [hb]; exact hbio⟩

/-- Witness for C9: a user with bio `"hi"` and a payload that changes
the name while leaving bio null keeps the bio. -/
theorem c9_null_bio_cannot_clear_witness :
    (update_profile 7 ⟨1, "a@x.com", .bcryptSha256 0 [97], "Al", some "hi", 5, 5⟩
        ⟨some "Bob", none⟩).bio = some "hi" ∧
    (update_profile 7 ⟨1, "a@x.com", .bcryptSha256 0 [97], "Al", some "hi", 5, 5⟩
        ⟨some "Bob", none⟩).bio ≠ none :=
  c9_null_bio_cannot_clear 7
    ⟨1, "a@x.com", .bcryptSha256 0 [97], "Al", some "hi", 5, 5⟩
    ⟨some "Bob", none⟩ (by decide) rfl

/-- Counterexample to claim C1: with the `Settings` type actually
defined in `src/core/config.py`, a call to `get_current_user` does not
produce the "invalid-or-expired credentials" rejection at all — an
uncaught `AttributeError` escapes the authenticator path, contradicting
the claim that no failure other than the uniform 401 rejection can
escape. -/
theorem c1_counterexample :
    get_current_user (Settings.toLike ⟨"postgresql://localhost/app"⟩) []
        (.malformed "abc") 0 = .error (.attributeError "JWT_SECRET") ∧
    (Except.error (.attributeError "JWT_SECRET") : Except PyExc User)
      ≠ .error (.httpException 401 "Invalid or expired token") := by
  decide

/-- Claim C1 amended: with the actual `Settings` (declaring only
`DATABASE_URL`), every `get_current_user` call raises `AttributeError`
out of the token-codec step before any token or store check, so no token
is ever verified successfully. Under a configuration object that does
provide the JWT attributes: a rejected or subject-less token yields
`HTTPException(401, "Invalid or expired token")`; a successfully
verified token whose well-formed-UUID subject matches no user record
yields `HTTPException(401, "User not found")` — the same status code but
a different detail string, so the caller can distinguish the two; and a
verified token whose subject is not a well-formed UUID makes the user
lookup raise `ValueError`, which escapes uncaught. -/
theorem c1_amended_authenticator_rejections :
    (∀ (s : Settings) (db : List User) (tok : TokenStr) (now : Nat),
      get_current_user s.toLike db tok now
        = .error (.attributeError "JWT_SECRET")) ∧
    (∀ (cfg : SettingsLike) (db : List User) (tok : TokenStr) (now : Nat),
      decode_access_token cfg tok now = .ok none →
      get_current_user cfg db tok now
        = .error (.httpException 401 "Invalid or expired token")) ∧
    (∀ (cfg : SettingsLike) (db : List User) (tok : TokenStr) (now : Nat)
        (uid : String) (v : Nat),
      decode_access_token cfg tok now = .ok (some uid) → uid ≠ "" →
      uuidParse uid = some v → db.find? (fun u => u.id == v) = none →
      get_current_user cfg db tok now
          = .error (.httpException 401 "User not found") ∧
        (PyExc.httpException 401 "User not found")
          ≠ .httpException 401 "Invalid or expired token") ∧
    (∀ (cfg : SettingsLike) (db : List User) (tok : TokenStr) (now : Nat)
        (uid : String),
      decode_access_token cfg tok now = .ok (some uid) → uid ≠ "" →
      uuidParse uid = none →
      get_current_user cfg db tok now = .error .valueError) := by
  refine ⟨fun s db tok now => rfl, ?_, ?_, ?_⟩
  · intro cfg db tok now h
    simp [get_current_user, h]
  · intro cfg db tok now uid v h hne hp hf
    refine ⟨?_, by decide⟩
    simp [get_current_user, h, hne, get_user_by_id, hp, hf]
  · intro cfg db tok now uid h hne hp
    simp [get_current_user, h, hne, get_user_by_id, hp]

/-- Witness for C1 (amended): under a configuration providing the JWT
attributes, a signed token for an unknown but well-formed UUID subject
gets the "User not found" rejection on an empty store, and a signed
token whose subject is not a UUID makes the lookup raise `ValueError`. -/
theorem c1_amended_authenticator_rejections_witness :
    get_current_user ⟨.ok "s", .ok "HS256", .ok 30⟩ []
        (.signed ⟨some "00000000-0000-0000-0000-000000000000", 100⟩ "s" "HS256")
        0
      = .error (.httpException 401 "User not found") ∧
    get_current_user ⟨.ok "s", .ok "HS256", .ok 30⟩ []
        (.signed ⟨some "not-a-uuid", 100⟩ "s" "HS256") 0
      = .error .valueError :=
  ⟨(c1_amended_authenticator_rejections.2.2.1 ⟨.ok "s", .ok "HS256", .ok 30⟩ []
      (.signed ⟨some "00000000-0000-0000-0000-000000000000", 100⟩ "s" "HS256")
      0 "00000000-0000-0000-0000-000000000000" 0
      (by decide) (by decide) (by decide) rfl).1,
   c1_amended_authenticator_rejections.2.2.2 ⟨.ok "s", .ok "HS256", .ok 30⟩ []
      (.signed ⟨some "not-a-uuid", 100⟩ "s" "HS256") 0 "not-a-uuid"
      (by decide) (by decide) (by decide)⟩

end AuthProfileAPI
